import Mathlib

/-!
Verification of `scripts/windows_build_wheels.py` from the ITKPythonPackage
repository, via a shallow embedding in Lean 4.

The script is straight-line build automation: scoped environment mutation
(`push_env`), scoped working-directory change (`push_dir`), a directory-ensure
helper (`mkdir_p`), per-version environment preparation (`prepare_build_env`),
and a per-version wheel build (`build_wheel`) that runs in single-artifact or
multi-artifact mode and ends with a cleanup pass over the build tree.

The embedding models:
  * the process environment as an insertion-ordered association list, matching
    Python `dict` / `os.environ` semantics (update in place, append new keys);
  * the filesystem visible to `mkdir_p` / `push_dir` as a flat map from path
    strings to entry kinds, plus the current working directory;
  * `contextlib.contextmanager` semantics: statements after an unguarded
    `yield` do not run when the wrapped block raises, while a class-based
    context manager's `__exit__` runs on every exit path;
  * side-effecting process invocations (`check_call`, …) as trace events.
-/

set_option autoImplicit false

namespace WindowsBuildWheels

/-! ## Process environment (`os.environ` as an insertion-ordered dict) -/

/-- The process environment: an insertion-ordered association list of
variable/value pairs, as Python's `os.environ` dict. -/
abbrev Env := List (String × String)

/-- `os.environ[k]`: value of the first (in a dict: unique) binding of `k`. -/
def envLookup (e : Env) (k : String) : Option String :=
  (e.find? (fun p => p.1 == k)).map (fun p => p.2)

/-- `k in os.environ`. -/
def envHas (e : Env) (k : String) : Bool :=
  e.any (fun p => p.1 == k)

/-- `os.environ[k] = v`: Python dict assignment — update an existing key in
place (keeping insertion order), otherwise append the new binding. -/
def envSet (e : Env) (k v : String) : Env :=
  if envHas e k then e.map (fun p => if p.1 == k then (k, v) else p)
  else e ++ [(k, v)]

/-- `del os.environ[k]`. -/
def envDel (e : Env) (k : String) : Env :=
  e.filter (fun p => p.1 != k)

/-- The `kwargs` of a `push_env(...)` call: each variable mapped to
`some value` (set it) or `none` (the Python `None`, meaning unset it). -/
abbrev EnvChanges := List (String × Option String)

/-- The loop at the top of `push_env`:
for each `(var, value)` in `kwargs.items()`, set `os.environ[var] = value`
when `value is not None`, else delete `var` if present. -/
def applyEnvChanges (changes : EnvChanges) (e : Env) : Env :=
  changes.foldl
    (fun acc c =>
      match c.2 with
      | some v => envSet acc c.1 v
      | none => if envHas acc c.1 then envDel acc c.1 else acc)
    e

/-- The epilogue of `push_env` after the `yield`:
`os.environ.clear()` followed by re-assigning every saved binding in order. -/
def restoreEnv (saved : Env) : Env :=
  saved.foldl (fun acc p => envSet acc p.1 p.2) []

/-- The wrapped block of a `with push_env(...)` statement.  It receives the
environment as mutated on entry and either returns normally (`.ok`) or raises
(`.error`); in both cases it yields the environment at the moment control
leaves the block. -/
abbrev EnvBody := Env → Except Env Env

/-- Semantics of `with push_env(**changes): body`, following
`contextlib.contextmanager`: the generator saves `dict(os.environ)`, applies
the changes and yields.  If the body returns normally, control resumes after
the `yield` and the restore epilogue runs.  If the body raises, the exception
is thrown into the generator at the `yield`; since the `yield` in `push_env`
is not wrapped in `try/finally`, the epilogue is skipped and the exception
(and the mutated environment) propagates. -/
def pushEnvRun (changes : EnvChanges) (body : EnvBody) (e : Env) : Except Env Env :=
  match body (applyEnvChanges changes e) with
  | .ok _ => .ok (restoreEnv e)
  | .error e2 => .error e2

/-! ### Environment lemmas -/

theorem envHas_eq_false_iff (e : Env) (k : String) :
    envHas e k = false ↔ ∀ p ∈ e, p.1 ≠ k := by
  unfold envHas
  rw [← Bool.not_eq_true, List.any_eq_true]
  push_neg
  constructor
  · intro h p hp
    have := h p hp
    simpa using this
  · intro h p hp
    simpa using h p hp

theorem envSet_of_fresh (e : Env) (k v : String) (h : ∀ p ∈ e, p.1 ≠ k) :
    envSet e k v = e ++ [(k, v)] := by
  unfold envSet
  rw [if_neg]
  rw [Bool.not_eq_true, envHas_eq_false_iff]
  exact h

theorem restore_foldl_eq_append (l acc : Env)
    (h : (acc.map Prod.fst ++ l.map Prod.fst).Nodup) :
    l.foldl (fun e p => envSet e p.1 p.2) acc = acc ++ l := by
  induction l generalizing acc with
  | nil => simp
  | cons p t ih =>
      have hsplit : (acc.map Prod.fst).Disjoint (p.1 :: t.map Prod.fst) := by
        have := List.nodup_append.mp (by simpa using h)
        exact this.2.2
      have hfresh : ∀ q ∈ acc, q.1 ≠ p.1 := by
        intro q hq hEq
        have hmem : q.1 ∈ acc.map Prod.fst := List.mem_map_of_mem Prod.fst hq
        exact hsplit hmem (by simp [hEq])
      rw [List.foldl_cons, envSet_of_fresh acc p.1 p.2 hfresh]
      rw [ih (acc ++ [p]) ?_]
      · simp
      · simpa [List.append_assoc] using h

/-- Restoring the saved snapshot rebuilds it exactly, because a dict snapshot
has pairwise-distinct keys. -/
theorem restoreEnv_eq (saved : Env) (h : (saved.map Prod.fst).Nodup) :
    restoreEnv saved = saved := by
  unfold restoreEnv
  simpa using restore_foldl_eq_append saved [] (by simpa using h)

/-! ## Filesystem, `mkdir_p` and `push_dir` -/

/-- What a path currently is on disk. -/
inductive EntryKind where
  | dir
  | file
  deriving DecidableEq, Repr

/-- The filesystem as a flat map from (opaque) path strings to entry kinds;
a path absent from the list does not exist. -/
abbrev FS := List (String × EntryKind)

/-- `os.path.exists`. -/
def pathExists (fs : FS) (p : String) : Bool :=
  fs.any (fun q => q.1 == p)

/-- `os.path.isdir`. -/
def isdir (fs : FS) (p : String) : Bool :=
  fs.any (fun q => q.1 == p && q.2 == EntryKind.dir)

/-- An `OSError`, identified by its `errno`. -/
structure OSError where
  errno : Nat
  deriving DecidableEq, Repr

/-- `errno.EEXIST`. -/
def eEEXIST : Nat := 17

/-- `os.makedirs(p)`: raises `OSError(EEXIST)` when `p` already exists
(as a directory or as a file), otherwise records `p` as a directory.
`fault` injects a spontaneous OS-level failure (permissions, I/O, …) of the
creation attempt, which the caller cannot distinguish from any other
`OSError` except through its `errno`. -/
def makedirs (fs : FS) (p : String) (fault : Option OSError) : Except OSError FS :=
  match fault with
  | some e => .error e
  | none =>
      if pathExists fs p then .error ⟨eEEXIST⟩
      else .ok ((p, EntryKind.dir) :: fs)

/-- `mkdir_p(path)` from the script: try `os.makedirs(path)`; on `OSError`,
swallow it exactly when `exc.errno == errno.EEXIST and os.path.isdir(path)`,
otherwise re-raise. -/
def mkdir_p (fs : FS) (p : String) (fault : Option OSError) : Except OSError FS :=
  match makedirs fs p fault with
  | .ok fs2 => .ok fs2
  | .error exc =>
      if exc.errno == eEEXIST && isdir fs p then .ok fs
      else .error exc

/-- Process state seen by `push_dir`: the current working directory and the
filesystem. -/
structure OSState where
  cwd : String
  fs : FS
  deriving DecidableEq, Repr

/-- `os.chdir(p)`: raises when `p` is not an existing directory, in which case
the working directory is unchanged. -/
def chdir (s : OSState) (p : String) : Except OSState OSState :=
  if isdir s.fs p then .ok { s with cwd := p }
  else .error s

/-- `push_dir.__enter__`: record `os.getcwd()` (done by the caller of this
function), then, when a truthy `directory` was given, optionally `mkdir_p` it
and `chdir` into it.  An exception escaping `__enter__` (from `mkdir_p` or
`chdir`) propagates with the state at that point. -/
def pushDirEnter : Option String → Bool → OSState → Except OSState OSState
  | none, _, s => .ok s
  | some d, makeDirectory, s =>
      if d = "" then .ok s
      else
        if makeDirectory then
          match mkdir_p s.fs d none with
          | .error _ => .error s
          | .ok fs2 => chdir { s with fs := fs2 } d
        else chdir s d

/-- `push_dir.__exit__(typ, val, traceback)`: unconditionally
`os.chdir(self.old_cwd)`; it returns `None`, so an in-flight exception keeps
propagating afterwards. -/
def pushDirExit (oldCwd : String) : Except OSState OSState → Except OSState OSState
  | .ok s2 =>
      match chdir s2 oldCwd with
      | .ok s3 => .ok s3
      | .error s3 => .error s3
  | .error s2 =>
      match chdir s2 oldCwd with
      | .ok s3 => .error s3
      | .error s3 => .error s3

/-- The wrapped block of a `with push_dir(...)` statement. -/
abbrev DirBody := OSState → Except OSState OSState

/-- State reached just after the wrapped block (before `__exit__`), or after
a failed `__enter__`. -/
def pushDirAfterBody (directory : Option String) (makeDirectory : Bool)
    (body : DirBody) (s : OSState) : Except OSState OSState :=
  match pushDirEnter directory makeDirectory s with
  | .error s1 => .error s1
  | .ok s1 => body s1

/-- Semantics of `with push_dir(directory, make_directory): body`.
If `__enter__` raises, the body and `__exit__` are skipped.  Otherwise
`__exit__` runs on both exit paths of the body (Python `with` semantics for a
class-based context manager). -/
def pushDirRun (directory : Option String) (makeDirectory : Bool)
    (body : DirBody) (s : OSState) : Except OSState OSState :=
  match pushDirEnter directory makeDirectory s with
  | .error s1 => .error s1
  | .ok s1 => pushDirExit s.cwd (body s1)

/-- The state carried by either outcome. -/
def exceptState : Except OSState OSState → OSState
  | .ok s => s
  | .error s => s

/-! ## `prepare_build_env` -/

/-- Side effects `prepare_build_env` can perform after its precondition
check: creating the virtual environment and installing a package into it. -/
inductive PrepEffect where
  | createVenv (venvDir : String)
  | pipInstall (pythonDir : String) (package : String)
  deriving DecidableEq, Repr

/-- `ROOT_DIR`-relative name of the per-version virtual environment,
`os.path.join(ROOT_DIR, "venv-%s" % python_version)` with the path prefix
kept symbolic. -/
def venvDirName (pythonVersion : String) : String :=
  "ROOT_DIR/venv-" ++ pythonVersion

/-- `prepare_build_env(python_version)`: compute
`python_dir = "C:/Python%s" % python_version`; if it does not exist, raise
`FileNotFoundError("Aborting. python_dir [%s] does not exist." % python_dir)`;
otherwise create the virtual environment when absent and `pip_install`
scikit-build into it.  `pythonDirExists` and `venvDirExists` are the two
`os.path.exists` probes; the result pairs the side effects actually performed
with the raised message, if any. -/
def prepare_build_env (pythonVersion : String)
    (pythonDirExists venvDirExists : Bool) :
    List PrepEffect × Option String :=
  let pythonDir := "C:/Python" ++ pythonVersion
  if !pythonDirExists then
    ([], some ("Aborting. python_dir [" ++ pythonDir ++ "] does not exist."))
  else
    ((if !venvDirExists then [PrepEffect.createVenv (venvDirName pythonVersion)] else [])
      ++ [PrepEffect.pipInstall (venvDirName pythonVersion) "scikit-build"],
     none)

/-! ## Reading `WHEEL_NAMES.txt` and iterating its first line -/

/-- `file.readline()` on contents `cs`: the first line, including its
terminating newline when present. -/
def readlineAux : List Char → List Char
  | [] => []
  | c :: cs => if c = '\n' then [c] else c :: readlineAux cs

/-- `content.readline()` for a file whose whole contents are `s`. -/
def readline (s : String) : String :=
  String.mk (readlineAux s.data)

/-- Iterating a Python `str` yields its characters as one-character
strings. -/
def strChars (s : String) : List String :=
  s.data.map (fun c => String.mk [c])

/-! ## `build_wheel` as a trace of process invocations -/

/-- The `check_call`/`check_output` invocations and tree operations performed
by `build_wheel`, in order. -/
inductive BCall where
  /-- `pip install -r requirements-dev.txt` -/
  | pipInstallRequirements
  /-- `shutil.rmtree(build_path)` for a leftover previous build -/
  | rmtreeBuildPath
  /-- `python setup_py_configure.py <name>` -/
  | configureSetupPy (name : String)
  /-- `python setup.py bdist_wheel ...`; in multi-artifact mode it carries
  `-DITKPythonPackage_WHEEL_NAME:STRING=<name>` -/
  | bdistWheel (wheelName : Option String)
  /-- `python setup.py clean` -/
  | setupPyClean
  /-- write/execute/delete the temporary generator-environment query script -/
  | queryGeneratorEnv
  /-- the shared-prerequisite `cmake` configure of the ITK build tree -/
  | cmakeConfigure
  /-- the shared-prerequisite `ninja` build -/
  | ninjaBuild
  /-- the `os.walk` pass deleting `.cpp`/`.xml`/`.obj` files -/
  | cleanupIntermediates
  /-- `shutil.rmtree(build_path/Wrapping/Generators)` -/
  | rmtreeWrappingGenerators
  deriving DecidableEq, Repr

/-- The per-wheel body of the multi-artifact loop: configure `setup.py` for
the name, generate the wheel, clean. -/
def wheelLoopCalls (wheelName : String) : List BCall :=
  [BCall.configureSetupPy wheelName,
   BCall.bdistWheel (some wheelName),
   BCall.setupPyClean]

/-- The invocation trace of `build_wheel(python_version, single_wheel)`.
`buildPathExists` is the `os.path.exists(build_path)` probe; `manifest` is the
contents of `WHEEL_NAMES.txt`.  In multi-artifact mode the script reads
`wheel_names = content.readline()` — a single string — and then iterates
`for wheel_name in wheel_names`, i.e. over the characters of that first
line. -/
def buildWheelCalls (singleWheel : Bool) (buildPathExists : Bool)
    (manifest : String) : List BCall :=
  [BCall.pipInstallRequirements]
    ++ (if buildPathExists then [BCall.rmtreeBuildPath] else [])
    ++ (if singleWheel then
          [BCall.configureSetupPy "itk",
           BCall.bdistWheel none,
           BCall.setupPyClean]
        else
          [BCall.queryGeneratorEnv, BCall.cmakeConfigure, BCall.ninjaBuild]
            ++ (strChars (readline manifest)).flatMap wheelLoopCalls)
    ++ [BCall.cleanupIntermediates, BCall.rmtreeWrappingGenerators]

/-- The `setup_py_configure.py` arguments appearing in a trace, in order. -/
def configureNames (calls : List BCall) : List String :=
  calls.filterMap (fun c =>
    match c with
    | BCall.configureSetupPy n => some n
    | _ => none)

/-- Split a character list at newlines. -/
def splitLinesAux (acc : List Char) : List Char → List (List Char)
  | [] => [acc]
  | c :: cs =>
      if c = '\n' then acc :: splitLinesAux [] cs
      else splitLinesAux (acc ++ [c]) cs

/-- The whole component names listed in the manifest: its non-empty lines.
This is what the spec's "N component names" denotes. -/
def manifestNames (manifest : String) : List String :=
  ((splitLinesAux [] manifest.data).map String.mk).filter (fun l => l ≠ "")

/-- Is a trace event a `setup_py_configure.py` invocation? -/
def isConfigureCall : BCall → Bool
  | BCall.configureSetupPy _ => true
  | _ => false

/-- Is a trace event a `setup.py bdist_wheel` invocation? -/
def isBdistCall : BCall → Bool
  | BCall.bdistWheel _ => true
  | _ => false

/-- Is a trace event a `setup.py clean` invocation? -/
def isCleanCall : BCall → Bool
  | BCall.setupPyClean => true
  | _ => false

/-! ## The temporary generator-environment query script -/

/-- Outcome of the `try` block body once the temporary file has been written:
`check_output` of the helper may fail, `json.loads` of its output may fail,
or a build environment is obtained. -/
inductive QueryOutcome where
  | execFails
  | parseFails
  | ok (buildEnv : EnvChanges)

/-- Errors escaping the query. -/
inductive QueryErr where
  | execError
  | parseError
  deriving DecidableEq, Repr

/-- Whether the uniquely named temporary helper file is on disk. -/
structure TmpState where
  tempFileExists : Bool
  deriving DecidableEq, Repr

/-- The `try` block of the query: execute the helper with the version's
interpreter and parse its JSON output. -/
def queryTryBody (outcome : QueryOutcome) : Except QueryErr EnvChanges :=
  match outcome with
  | .execFails => .error QueryErr.execError
  | .parseFails => .error QueryErr.parseError
  | .ok env => .ok env

/-- The whole query step of multi-artifact `build_wheel`:
`tempfile.NamedTemporaryFile(delete=False)` writes the helper to disk; the
`try` body runs; the `finally` clause closes and `os.remove`s the file on
every path, whether the body returned a value or an error. -/
def queryGeneratorEnvRun (outcome : QueryOutcome) :
    TmpState × Except QueryErr EnvChanges :=
  let afterCreate : TmpState := { tempFileExists := true }
  let result := queryTryBody outcome
  let afterFinally : TmpState := { afterCreate with tempFileExists := false }
  (afterFinally, result)

/-! ## Post-build cleanup of the build tree -/

/-- A file in the build tree: its path as components relative to
`build_path`, and its contents. -/
abbrev TreeFile := List String × String

/-- The build tree as the list of its files. -/
abbrev FileTree := List TreeFile

/-- Index of the last `'.'` in a list of characters, if any. -/
def lastDotIdx : List Char → Option Nat
  | [] => none
  | c :: cs =>
      match lastDotIdx cs with
      | some i => some (i + 1)
      | none => if c = '.' then some 0 else none

/-- `os.path.splitext(filename)[1]` for a bare filename: the suffix starting
at the last dot, except that leading dots of the name never start an
extension (`splitext(".cshrc") == (".cshrc", "")`). -/
def extOf (filename : String) : String :=
  match lastDotIdx filename.data with
  | none => ""
  | some i =>
      if (filename.data.take i).all (fun c => c = '.') then ""
      else String.mk (filename.data.drop i)

/-- The three designated intermediate extensions. -/
def intermediateExts : List String := [".cpp", ".xml", ".obj"]

/-- The filename (last path component) of a tree file. -/
def fileName (f : TreeFile) : String :=
  f.1.getLastD ""

/-- The `os.walk` pass: `os.remove` every file whose extension is one of the
three designated intermediate extensions. -/
def walkRemoveIntermediates (t : FileTree) : FileTree :=
  t.filter (fun f => !(intermediateExts.contains (extOf (fileName f))))

/-- Whether a path lies under the `Wrapping/Generators` subdirectory of the
build tree. -/
def underWrappingGenerators (p : List String) : Bool :=
  match p with
  | "Wrapping" :: "Generators" :: _ :: _ => true
  | _ => false

/-- `shutil.rmtree(os.path.join(build_path, "Wrapping", "Generators"))`. -/
def rmtreeWrappingGeneratorsFS (t : FileTree) : FileTree :=
  t.filter (fun f => !underWrappingGenerators f.1)

/-- The post-build cleanup step at the end of `build_wheel`: the `os.walk`
removal pass followed by the removal of `Wrapping/Generators`. -/
def cleanupBuildTree (t : FileTree) : FileTree :=
  rmtreeWrappingGeneratorsFS (walkRemoveIntermediates t)

/-! ## The PATH mutation in `build_wheel` -/

/-- Does the string end with the given character? -/
def strEndsWithChar (s : String) (c : Char) : Bool :=
  match s.data.getLast? with
  | some d => d == c
  | none => false

/-- `ntpath.join(a, b)` for a relative second component: append with a `"\"`
separator unless `a` is empty or already ends in a separator or a drive
colon. -/
def ntpathJoin (a b : String) : String :=
  if a = "" then b
  else if strEndsWithChar a '\\' || strEndsWithChar a '/' || strEndsWithChar a ':'
    then a ++ b
  else a ++ "\\" ++ b

/-- The string `"%s:%s" % (path, os.environ["PATH"])` that `build_wheel`
passes as the `PATH` keyword of `push_env`, where
`path = os.path.join(venv_dir, "Scripts")` and `old` is the current value of
`os.environ["PATH"]`. -/
def buildWheelPathArg (venvDir old : String) : String :=
  ntpathJoin venvDir "Scripts" ++ ":" ++ old

/-! ## Shared lemmas -/

theorem envLookup_cons_hit (p : String × String) (t : Env) (k : String)
    (h : (p.1 == k) = true) : envLookup (p :: t) k = some p.2 := by
  unfold envLookup
  simp only [List.find?_cons]
  rw [h]
  rfl

theorem envLookup_cons_miss (p : String × String) (t : Env) (k : String)
    (h : (p.1 == k) = false) : envLookup (p :: t) k = envLookup t k := by
  unfold envLookup
  simp only [List.find?_cons]
  rw [h]

theorem envLookup_append_fresh (e : Env) (k v : String)
    (h : envHas e k = false) : envLookup (e ++ [(k, v)]) k = some v := by
  induction e with
  | nil => exact envLookup_cons_hit (k, v) [] k (by simp)
  | cons p t ih =>
      unfold envHas at h
      rw [List.any_cons, Bool.or_eq_false_iff] at h
      rw [List.cons_append, envLookup_cons_miss p _ k h.1]
      exact ih h.2

theorem envLookup_map_update (e : Env) (k v : String)
    (h : envHas e k = true) :
    envLookup (e.map (fun p => if p.1 == k then (k, v) else p)) k = some v := by
  induction e with
  | nil => simp [envHas] at h
  | cons p t ih =>
      rw [List.map_cons]
      by_cases hp : (p.1 == k) = true
      · rw [if_pos hp]
        exact envLookup_cons_hit (k, v) _ k (by simp)
      · have hp2 : (p.1 == k) = false := by
          rw [Bool.not_eq_true] at hp
          exact hp
        rw [if_neg (by simp [hp2])]
        rw [envLookup_cons_miss p _ k hp2]
        apply ih
        unfold envHas at h
        rw [List.any_cons, hp2, Bool.false_or] at h
        exact h

theorem envLookup_envSet_self (e : Env) (k v : String) :
    envLookup (envSet e k v) k = some v := by
  unfold envSet
  by_cases h : envHas e k = true
  · rw [if_pos h]
    exact envLookup_map_update e k v h
  · rw [if_neg h]
    exact envLookup_append_fresh e k v (by simpa using h)

theorem chdir_error_eq (s s1 : OSState) (p : String)
    (h : chdir s p = .error s1) : s1 = s := by
  unfold chdir at h
  by_cases hd : isdir s.fs p
  · simp [hd] at h
  · simp [hd] at h
    exact h.symm

theorem chdir_ok_cwd (s s1 : OSState) (p : String)
    (h : chdir s p = .ok s1) : s1.cwd = p := by
  unfold chdir at h
  by_cases hd : isdir s.fs p
  · simp [hd] at h
    rw [← h]
  · simp [hd] at h

theorem pushDirEnter_error_cwd (directory : Option String) (makeDirectory : Bool)
    (s s1 : OSState) (h : pushDirEnter directory makeDirectory s = .error s1) :
    s1.cwd = s.cwd := by
  cases directory with
  | none => exact absurd h (by simp [pushDirEnter])
  | some d =>
      simp only [pushDirEnter] at h
      by_cases hd : d = ""
      · rw [if_pos hd] at h
        exact absurd h (by simp)
      · rw [if_neg hd] at h
        cases makeDirectory with
        | false =>
            rw [if_neg (by simp)] at h
            rw [chdir_error_eq s s1 d h]
        | true =>
            rw [if_pos rfl] at h
            cases hm : mkdir_p s.fs d none with
            | error e =>
                rw [hm] at h
                have hs : s1 = s := by
                  exact (Except.error.injEq _ _).mp h.symm
                rw [hs]
            | ok fs2 =>
                rw [hm] at h
                have := chdir_error_eq { s with fs := fs2 } s1 d h
                rw [this]

/-! ## Claim theorems -/

/-- C4: when the wrapped operation returns normally, `push_env` restoration is
a total replacement — the environment is cleared and the exact pre-entry
snapshot is reinstated, so every mutation the body made (to unrelated
variables, or by adding variables) is discarded: the final environment is
exactly the pre-entry one, whatever environment `e2` the body produced. -/
theorem pushEnv_normal_exit_total_replacement (changes : EnvChanges)
    (body : EnvBody) (e e2 : Env)
    (hnd : (e.map Prod.fst).Nodup)
    (hb : body (applyEnvChanges changes e) = .ok e2) :
    pushEnvRun changes body e = .ok e := by
  have hr : pushEnvRun changes body e = .ok (restoreEnv e) := by
    unfold pushEnvRun
    rw [hb]
  rw [hr, restoreEnv_eq e hnd]

theorem pushEnv_normal_exit_total_replacement_witness :
    pushEnvRun [("A", some "x")]
      (fun _ => .ok [("B", "y"), ("C", "changed")]) [("C", "z")]
      = .ok [("C", "z")] :=
  pushEnv_normal_exit_total_replacement [("A", some "x")]
    (fun _ => .ok [("B", "y"), ("C", "changed")]) [("C", "z")]
    [("B", "y"), ("C", "changed")] (by decide) rfl

/-- C1: evaluation of `push_env` on a concrete raising body.  Starting from an
empty environment and pushing `FOO=1`, a body that raises immediately leaves
the process environment equal to `[("FOO", "1")]` — not the pre-entry
snapshot `[]` — because the `yield` in `push_env` is not guarded by
`try/finally`, so the restore epilogue is skipped when the wrapped operation
raises. -/
theorem pushEnv_raise_skips_restore :
    pushEnvRun [("FOO", some "1")] (fun env => .error env) []
      = .error [("FOO", "1")]
    ∧ ([("FOO", "1")] : Env) ≠ [] := by
  exact ⟨rfl, by decide⟩

/-- C3: `push_dir` restores the working directory recorded at entry on every
exit path — when the body returns normally, when it raises, and when
`__enter__` itself raises — including the case where the target directory did
not exist and was created by `mkdir_p` on entry.  The hypothesis says the
original working directory still exists when the scope ends (otherwise the
restoring `os.chdir` itself would fail). -/
theorem pushDir_restores_cwd (directory : Option String) (makeDirectory : Bool)
    (body : DirBody) (s : OSState)
    (h : isdir (exceptState (pushDirAfterBody directory makeDirectory body s)).fs
        s.cwd = true) :
    (exceptState (pushDirRun directory makeDirectory body s)).cwd = s.cwd := by
  cases he : pushDirEnter directory makeDirectory s with
  | error s1 =>
      have hrun : pushDirRun directory makeDirectory body s = .error s1 := by
        unfold pushDirRun
        rw [he]
      rw [hrun]
      exact pushDirEnter_error_cwd directory makeDirectory s s1 he
  | ok s1 =>
      have hrun : pushDirRun directory makeDirectory body s
          = pushDirExit s.cwd (body s1) := by
        unfold pushDirRun
        rw [he]
      have hafter : pushDirAfterBody directory makeDirectory body s = body s1 := by
        unfold pushDirAfterBody
        rw [he]
      rw [hafter] at h
      rw [hrun]
      cases hb : body s1 with
      | ok s2 =>
          rw [hb] at h
          have h2 : isdir s2.fs s.cwd = true := h
          simp [pushDirExit, chdir, h2, exceptState]
      | error s2 =>
          rw [hb] at h
          have h2 : isdir s2.fs s.cwd = true := h
          simp [pushDirExit, chdir, h2, exceptState]

theorem pushDir_restores_cwd_witness :
    (exceptState (pushDirRun (some "newdir") true (fun s1 => .ok s1)
        { cwd := "home", fs := [("home", EntryKind.dir)] })).cwd = "home"
    ∧ (exceptState (pushDirRun (some "newdir") true (fun s1 => .error s1)
        { cwd := "home", fs := [("home", EntryKind.dir)] })).cwd = "home" :=
  ⟨pushDir_restores_cwd (some "newdir") true (fun s1 => .ok s1)
      { cwd := "home", fs := [("home", EntryKind.dir)] } (by decide),
   pushDir_restores_cwd (some "newdir") true (fun s1 => .error s1)
      { cwd := "home", fs := [("home", EntryKind.dir)] } (by decide)⟩

/-- C5: `mkdir_p` succeeds when creation fails because the path already
exists as a directory — so a second call on the same path succeeds with the
directory still existing — while a path existing as a non-directory, or any
creation failure with a different `errno`, raises. -/
theorem mkdir_p_error_handling (fs : FS) (p : String) (e : OSError) :
    (pathExists fs p = false →
      mkdir_p fs p none = .ok ((p, EntryKind.dir) :: fs)
      ∧ isdir ((p, EntryKind.dir) :: fs) p = true
      ∧ mkdir_p ((p, EntryKind.dir) :: fs) p none
          = .ok ((p, EntryKind.dir) :: fs))
    ∧ (pathExists fs p = true → isdir fs p = false →
        mkdir_p fs p none = .error ⟨eEEXIST⟩)
    ∧ (e.errno ≠ eEEXIST → mkdir_p fs p (some e) = .error e) := by
  refine ⟨fun h => ⟨?_, ?_, ?_⟩, fun h1 h2 => ?_, fun hne => ?_⟩
  · unfold mkdir_p makedirs
    rw [h]
    rfl
  · simp [isdir]
  · have hex : pathExists ((p, EntryKind.dir) :: fs) p = true := by
      simp [pathExists]
    have hd : isdir ((p, EntryKind.dir) :: fs) p = true := by
      simp [isdir]
    unfold mkdir_p makedirs
    rw [hex, hd]
    simp [eEEXIST]
  · unfold mkdir_p makedirs
    rw [h1, h2]
    simp [eEEXIST]
  · show (match (Except.error e : Except OSError FS) with
      | .ok fs2 => Except.ok fs2
      | .error exc =>
          if exc.errno == eEEXIST && isdir fs p then Except.ok fs
          else Except.error exc) = Except.error e
    have hb : (e.errno == eEEXIST) = false := by
      simpa using hne
    simp [hb]

theorem mkdir_p_error_handling_witness :
    (mkdir_p [] "build" none = .ok [("build", EntryKind.dir)]
      ∧ isdir [("build", EntryKind.dir)] "build" = true
      ∧ mkdir_p [("build", EntryKind.dir)] "build" none
          = .ok [("build", EntryKind.dir)])
    ∧ mkdir_p [("plain", EntryKind.file)] "plain" none = .error ⟨eEEXIST⟩
    ∧ mkdir_p [] "build" (some ⟨13⟩) = .error ⟨13⟩ :=
  ⟨(mkdir_p_error_handling [] "build" ⟨13⟩).1 (by decide),
   (mkdir_p_error_handling [("plain", EntryKind.file)] "plain" ⟨13⟩).2.1
      (by decide) (by decide),
   (mkdir_p_error_handling [] "build" ⟨13⟩).2.2 (by decide)⟩

/-- C6: when the fixed interpreter installation root `C:/Python<version>`
does not exist, `prepare_build_env` raises the descriptive
`FileNotFoundError` and performs no side effect: no virtual environment is
created and no package is installed, whatever the state of the venv
directory. -/
theorem prepare_build_env_missing_root (v : String) (venvDirExists : Bool) :
    prepare_build_env v false venvDirExists
      = ([], some ("Aborting. python_dir [" ++ ("C:/Python" ++ v)
            ++ "] does not exist.")) := rfl

/-- C2: evaluation of multi-artifact `build_wheel` on a manifest listing the
two component names `itk-core` and `itk-filtering`.  Because the script reads
only the first line (`readline`) and then iterates over the characters of
that string, it invokes the configure/packaging pair once per character —
nine times, with single-character names including the newline — instead of
once per whole component name. -/
theorem buildWheel_multi_configures_per_character :
    configureNames (buildWheelCalls false false "itk-core\nitk-filtering\n")
      = ["i", "t", "k", "-", "c", "o", "r", "e", "\n"]
    ∧ manifestNames "itk-core\nitk-filtering\n" = ["itk-core", "itk-filtering"]
    ∧ configureNames (buildWheelCalls false false "itk-core\nitk-filtering\n")
        ≠ manifestNames "itk-core\nitk-filtering\n" := by
  refine ⟨by decide, by decide, by decide⟩

/-- C9: in single-artifact mode the trace of `build_wheel` contains exactly
one `setup_py_configure.py` invocation, and it carries the fixed component
name `"itk"`; exactly one `setup.py bdist_wheel` invocation; and exactly one
`setup.py clean` invocation — for any leftover-build state and any manifest
contents. -/
theorem buildWheel_single_trace (buildPathExists : Bool) (manifest : String) :
    (buildWheelCalls true buildPathExists manifest).filter isConfigureCall
      = [BCall.configureSetupPy "itk"]
    ∧ (buildWheelCalls true buildPathExists manifest).filter isBdistCall
      = [BCall.bdistWheel none]
    ∧ (buildWheelCalls true buildPathExists manifest).filter isCleanCall
      = [BCall.setupPyClean] := by
  cases buildPathExists <;> exact ⟨rfl, rfl, rfl⟩

/-- C8: the temporary helper program written to query the generator's
expected environment is deleted by the `finally` clause on every path: after
the query step the temporary file is gone whether executing the helper
succeeded, executing it raised, or parsing its output raised — and the
outcome of the `try` body is passed through unchanged. -/
theorem query_temp_file_always_removed (outcome : QueryOutcome) :
    (queryGeneratorEnvRun outcome).1.tempFileExists = false
    ∧ (queryGeneratorEnvRun outcome).2 = queryTryBody outcome :=
  ⟨rfl, rfl⟩

/-- C7 counterexample: a file under `Wrapping/Generators` whose extension is
not one of the three designated intermediate extensions is nevertheless
absent after cleanup (removed by the `shutil.rmtree` of
`Wrapping/Generators`), refuting "every file whose extension is not one of
those three is unchanged" as stated. -/
theorem cleanup_removes_nondesignated_file :
    extOf "readme.txt" ∉ intermediateExts
    ∧ ((["Wrapping", "Generators", "readme.txt"], "doc") : TreeFile)
        ∈ ([(["Wrapping", "Generators", "readme.txt"], "doc")] : FileTree)
    ∧ ((["Wrapping", "Generators", "readme.txt"], "doc") : TreeFile)
        ∉ cleanupBuildTree [(["Wrapping", "Generators", "readme.txt"], "doc")] := by
  refine ⟨by decide, by decide, by decide⟩

/-- C7 (amended): after the post-build cleanup, every file whose extension is
one of the three designated intermediate extensions is removed; every file
*outside* the `Wrapping/Generators` subdirectory whose extension is not one
of those three is unchanged; no file under `Wrapping/Generators` remains; and
no file appears that was not in the tree before. -/
theorem cleanupBuildTree_amended (t : FileTree) (f : TreeFile) :
    (f ∈ t → extOf (fileName f) ∈ intermediateExts → f ∉ cleanupBuildTree t)
    ∧ (f ∈ t → underWrappingGenerators f.1 = false →
        extOf (fileName f) ∉ intermediateExts → f ∈ cleanupBuildTree t)
    ∧ (f ∈ cleanupBuildTree t → underWrappingGenerators f.1 = false)
    ∧ (f ∈ cleanupBuildTree t → f ∈ t) := by
  unfold cleanupBuildTree rmtreeWrappingGeneratorsFS walkRemoveIntermediates
  refine ⟨fun hf hext hmem => ?_, fun hf hgen hext => ?_, fun hmem => ?_,
    fun hmem => ?_⟩
  · rw [List.mem_filter, List.mem_filter] at hmem
    have hc := hmem.1.2
    simp only [Bool.not_eq_true'] at hc
    simp only [List.contains, List.elem_eq_mem, decide_eq_false_iff_not] at hc
    exact hc hext
  · rw [List.mem_filter, List.mem_filter]
    refine ⟨⟨hf, ?_⟩, ?_⟩
    · simp only [Bool.not_eq_true']
      simp only [List.contains, List.elem_eq_mem, decide_eq_false_iff_not]
      exact hext
    · simp [hgen]
  · rw [List.mem_filter] at hmem
    simpa using hmem.2
  · rw [List.mem_filter, List.mem_filter] at hmem
    exact hmem.1.1

theorem cleanupBuildTree_amended_witness :
    ((["Wrapping", "Typedefs", "a.cpp"], "gen") : TreeFile)
        ∉ cleanupBuildTree
            [((["Wrapping", "Typedefs", "a.cpp"], "gen") : TreeFile),
             ((["Modules", "b.txt"], "keep") : TreeFile)]
    ∧ ((["Modules", "b.txt"], "keep") : TreeFile)
        ∈ cleanupBuildTree
            [((["Wrapping", "Typedefs", "a.cpp"], "gen") : TreeFile),
             ((["Modules", "b.txt"], "keep") : TreeFile)] :=
  ⟨(cleanupBuildTree_amended
      [((["Wrapping", "Typedefs", "a.cpp"], "gen") : TreeFile),
       ((["Modules", "b.txt"], "keep") : TreeFile)]
      ((["Wrapping", "Typedefs", "a.cpp"], "gen") : TreeFile)).1
      (by decide) (by decide),
   ((cleanupBuildTree_amended
      [((["Wrapping", "Typedefs", "a.cpp"], "gen") : TreeFile),
       ((["Modules", "b.txt"], "keep") : TreeFile)]
      ((["Modules", "b.txt"], "keep") : TreeFile)).2.1
      (by decide) (by decide) (by decide))⟩

/-- C10: the scoped PATH mutation of `build_wheel` sets, inside the scope,
`PATH` to the virtual environment's `Scripts` directory joined to the prior
`PATH` value with the character `:` — the POSIX path-list separator — rather
than the Windows separator `;`. -/
theorem buildWheel_path_uses_colon_separator (venvDir old : String) (e : Env)
    (h : envLookup e "PATH" = some old) :
    envLookup
        (applyEnvChanges [("PATH", some (buildWheelPathArg venvDir old))] e)
        "PATH"
      = some (ntpathJoin venvDir "Scripts" ++ ":" ++ old) := by
  have hs := envLookup_envSet_self e "PATH" (buildWheelPathArg venvDir old)
  have happ : applyEnvChanges [("PATH", some (buildWheelPathArg venvDir old))] e
      = envSet e "PATH" (buildWheelPathArg venvDir old) := rfl
  rw [happ, hs]
  rfl

theorem buildWheel_path_uses_colon_separator_witness :
    envLookup
        (applyEnvChanges
          [("PATH", some (buildWheelPathArg "C:\\venv" "C:\\old"))]
          [("PATH", "C:\\old")])
        "PATH"
      = some "C:\\venv\\Scripts:C:\\old" := by
  have h := buildWheel_path_uses_colon_separator "C:\\venv" "C:\\old"
    [("PATH", "C:\\old")] (by decide)
  rw [h]
  decide

end WindowsBuildWheels
